import Mathlib

/-!
Verification development for the twitter_trend_agent repository.

The repository implements a retrieval-augmented-generation control loop as a
LangGraph state graph (`create_workflow` in `app/utils.py`) over the node
functions of `twitter_server/nodes.py` and the conditional edges of
`twitter_server/edges.py`, with retrieval implemented by
`twitter_server/document_loader.py` on top of
`twitter_tools/get_twitter.py`.

External collaborators (the LLM graders, the question rewriter, the
generation chain, the tweet search API, the text splitter and the FAISS
vector search) are modelled as function parameters (oracles).  Everything
with decision logic in the repository is embedded directly from the source.
-/

namespace TwitterAgent

/-- Raw outcome of one grader chain invocation (`prompt | model | JsonOutputParser`),
as observed by the node code: either the JSON parse raised
(`OutputParserException`), or it produced an object whose optional
`score` entry is the given string (`none` models a missing key, which makes
the subsequent `score["score"]` subscript raise `KeyError`). -/
inductive GraderOut where
  | parseFail (msg : String)
  | parsed (score : Option String)
deriving DecidableEq

/-- Python exceptions that escape a grader invocation in the node code. -/
inductive GError where
  | outputParseError (msg : String)
  | keyError
deriving DecidableEq

/-- Evaluation of `score = grader.invoke(...)` followed by `score["score"]`:
a JSON parse failure or a missing `score` key raises; otherwise the score
string is returned. -/
def invokeScore : GraderOut → Except GError String
  | .parseFail m => .error (.outputParseError m)
  | .parsed none => .error .keyError
  | .parsed (some v) => .ok v

/-- A langchain `Document`; the repository only ever sets and reads
`page_content` (`Document(page_content=doc["real_data"])`). -/
structure Document where
  page_content : String
deriving DecidableEq

/-- The graph state threaded through the nodes (`GraphState` in
`twitter_server/graph.py`, plus the `error` entry written by
`GraphNodes.retrieve` on fetch failure).  Node updates are merged into the
state, so entries a node does not return keep their previous value. -/
structure GState where
  input : String
  documents : List Document
  generation : Option String
  retry_count : Nat
  error : Option String
deriving DecidableEq

/-- Initial graph state for a session: the serving shell invokes the
compiled graph with `{"input": question}`, and every node reads the missing
entries with defaults (`state.get("retry_count", 0)`, `state.get("error", None)`). -/
def initState (q : String) : GState :=
  { input := q, documents := [], generation := none, retry_count := 0, error := none }

instance exceptDecEq {ε α : Type} [DecidableEq ε] [DecidableEq α] :
    DecidableEq (Except ε α)
  | .ok a, .ok b =>
    if h : a = b then .isTrue (by rw [h]) else .isFalse (fun hh => by cases hh; exact h rfl)
  | .ok _, .error _ => .isFalse (fun hh => by cases hh)
  | .error _, .ok _ => .isFalse (fun hh => by cases hh)
  | .error e, .error f =>
    if h : e = f then .isTrue (by rw [h]) else .isFalse (fun hh => by cases hh; exact h rfl)

namespace GraphNodes

/-- Apology produced by `GraphNodes.generate` when the `error` entry is set
(`nodes.py`, line 69); the captured fetch error reason is appended. -/
def apologyMessage (e : String) : String :=
  "I apologize, but I couldn\x27t access X (Twitter) to retrieve information. Error: " ++ e

/-- Canned answer produced by `GraphNodes.generate` when the document list is
empty (`nodes.py`, line 75). -/
def noDocsMessage : String :=
  "I apologize, but I couldn\x27t retrieve any relevant information from X (Twitter) at this time. This might be due to API limitations or network issues. Please try again later or rephrase your question."

/-- Embeds `GraphNodes.retrieve` (`nodes.py`, lines 19-46). `retr` is the
awaited `self.retriever.get_retriever(keywords=[question], page=1)` call:
on success the retrieved documents replace `documents`; a `RuntimeError` is
caught and its message stored under `error` with `documents` set to `[]`.
Entries not in the returned dict (`generation`, and `error` on the success
path) keep their previous value. -/
def retrieve (retr : String → Except String (List Document)) (s : GState) : GState :=
  match retr s.input with
  | .ok docs => { s with documents := docs }
  | .error e => { s with documents := [], error := some e }

/-- Embeds `GraphNodes.generate` (`nodes.py`, lines 48-81).  `genChain` is
`self.generate_chain.invoke({"context": documents, "input": question})`.
An `error` entry short-circuits to the apology; an empty document list
short-circuits to the canned no-documents answer; otherwise the generation
chain runs. -/
def generate (genChain : List Document → String → String) (s : GState) : GState :=
  match s.error with
  | some e => { s with generation := some (apologyMessage e) }
  | none =>
    if s.documents = [] then { s with generation := some noDocsMessage }
    else { s with generation := some (genChain s.documents s.input) }

/-- The grading loop inside `GraphNodes.grade_documents` (`nodes.py`, lines
104-114): each document is graded in order; a grader exception propagates;
a document is kept exactly when the score string equals "yes". -/
def gradeLoop (rg : String → String → GraderOut) (q : String) :
    List Document → Except GError (List Document)
  | [] => .ok []
  | d :: ds =>
    match invokeScore (rg q d.page_content) with
    | .error e => .error e
    | .ok grade =>
      match gradeLoop rg q ds with
      | .error e => .error e
      | .ok rest => if grade = "yes" then .ok (d :: rest) else .ok rest

/-- Embeds `GraphNodes.grade_documents` (`nodes.py`, lines 83-116): an empty
document list is returned as `[]` without invoking the grader; otherwise the
documents are filtered by the retrieval grader, any grader exception
propagating to the caller. -/
def grade_documents (rg : String → String → GraderOut) (s : GState) :
    Except GError GState :=
  if s.documents = [] then .ok { s with documents := [] }
  else
    match gradeLoop rg s.input s.documents with
    | .error e => .error e
    | .ok filtered => .ok { s with documents := filtered }

/-- Embeds `GraphNodes.transform_query` (`nodes.py`, lines 118-139): the
question rewriter replaces `input` and `retry_count` is incremented by one.
The node prints "Retry attempt: {retry_count}/3" but enforces no bound. -/
def transform_query (rw : String → String) (s : GState) : GState :=
  { s with input := rw s.input, retry_count := s.retry_count + 1 }

end GraphNodes

namespace EdgeGraph

/-- Embeds `EdgeGraph.decide_to_generate` (`edges.py`, lines 6-27): with an
empty filtered document list the decision is "transform_query", otherwise
"generate". -/
def decide_to_generate (s : GState) : String :=
  if s.documents = [] then "transform_query" else "generate"

/-- Embeds `EdgeGraph.grade_generation_v_documents_and_question`
(`edges.py`, lines 29-62).  `hg` is the hallucination grader invoked on
`(documents, generation)`, `ce` the code evaluator invoked on
`(input, generation, documents)`.  The code evaluator only runs inside the
branch where the hallucination score equals "yes"; grader exceptions
propagate.  The graph invokes this edge only after `generate` has set
`generation`, so the `state["generation"]` read is modelled by `Option.getD`. -/
def grade_generation_v_documents_and_question
    (hg : List Document → String → GraderOut)
    (ce : String → String → List Document → GraderOut) (s : GState) :
    Except GError String :=
  let generation := s.generation.getD ""
  match invokeScore (hg s.documents generation) with
  | .error e => .error e
  | .ok grade =>
    if grade = "yes" then
      match invokeScore (ce s.input generation s.documents) with
      | .error e => .error e
      | .ok g2 => if g2 = "yes" then .ok "useful" else .ok "not useful"
    else .ok "not supported"

end EdgeGraph

/-- Nodes of the compiled workflow graph (`create_workflow` in
`app/utils.py`), plus the `END` terminal. -/
inductive WNode where
  | retrieve
  | grade_documents
  | generate
  | transform_query
  | terminal
deriving DecidableEq

/-- The external collaborators wired into the workflow by
`create_parser_components` / `create_workflow` (`app/utils.py`). -/
structure Components where
  retr : String → Except String (List Document)
  retrieval_grader : String → String → GraderOut
  hallucination_grader : List Document → String → GraderOut
  code_evaluator : String → String → List Document → GraderOut
  question_rewriter : String → String
  generate_chain : List Document → String → String

/-- One transition of the compiled workflow (`create_workflow`,
`app/utils.py`, lines 94-119): the current node runs on the state, then the
fixed edge (`retrieve → grade_documents`, `transform_query → retrieve`) or
the conditional edge (`decide_to_generate` after `grade_documents`;
`grade_generation_v_documents_and_question` after `generate`, with
"not supported" mapped to `generate`, "useful" to `END` and "not useful" to
`transform_query`) selects the next node.  Grader exceptions abort the
session. -/
def step (c : Components) : WNode × GState → Except GError (WNode × GState)
  | (.retrieve, s) => .ok (.grade_documents, GraphNodes.retrieve c.retr s)
  | (.grade_documents, s) =>
    match GraphNodes.grade_documents c.retrieval_grader s with
    | .error e => .error e
    | .ok s1 =>
      if EdgeGraph.decide_to_generate s1 = "transform_query" then
        .ok (.transform_query, s1)
      else
        .ok (.generate, s1)
  | (.generate, s) =>
    match EdgeGraph.grade_generation_v_documents_and_question
        c.hallucination_grader c.code_evaluator (GraphNodes.generate c.generate_chain s) with
    | .error e => .error e
    | .ok d =>
      if d = "not supported" then .ok (.generate, GraphNodes.generate c.generate_chain s)
      else if d = "useful" then .ok (.terminal, GraphNodes.generate c.generate_chain s)
      else .ok (.transform_query, GraphNodes.generate c.generate_chain s)
  | (.transform_query, s) => .ok (.retrieve, GraphNodes.transform_query c.question_rewriter s)
  | (.terminal, s) => .ok (.terminal, s)

/-- Runs `n` transitions of the workflow. -/
def run (c : Components) : Nat → WNode × GState → Except GError (WNode × GState)
  | 0, p => .ok p
  | n + 1, p =>
    match step c p with
    | .error e => .error e
    | .ok p1 => run c n p1

namespace GetTwitter

/-- One entry of the list returned by `twitter_detail_pipeline`
(`twitter_tools/get_twitter.py`): the keyword and the formatted tweet data
(`real_data`, the JSON string built by `process_tweet_results`). -/
structure KeywordResult where
  keyword : String
  real_data : String
deriving DecidableEq

/-- The per-keyword loop of `twitter_detail_pipeline`
(`get_twitter.py`, lines 266-287).  `search` is
`client.search_tweets(keyword, count=count)` (which raises `RuntimeError`
on API errors) and `fmt` is `process_tweet_results` (a pure formatting step
whose output string the control loop never inspects).  A search exception is
caught and the keyword skipped (`continue`), a keyword with no tweets is
skipped, and otherwise the formatted result is appended. -/
def keywordLoop {α : Type} (search : String → Except String (List α))
    (fmt : List α → String) : List String → List KeywordResult
  | [] => []
  | k :: ks =>
    match search k with
    | .error _ => keywordLoop search fmt ks
    | .ok [] => keywordLoop search fmt ks
    | .ok ts => { keyword := k, real_data := fmt ts } :: keywordLoop search fmt ks

/-- Embeds `twitter_detail_pipeline` (`get_twitter.py`, lines 239-293).
`tweepy_available` models the import guard, `init` the
`client.initialize()` call (whose exception message is wrapped).  After the
keyword loop, an empty result list raises the final no-access
`RuntimeError`; otherwise the results are returned. -/
def twitter_detail_pipeline {α : Type} (tweepy_available : Bool)
    (init : Except String Unit) (search : String → Except String (List α))
    (fmt : List α → String) (keywords : List String) :
    Except String (List KeywordResult) :=
  if tweepy_available = false then
    .error "No access to X: tweepy library is not installed. Please install with: pip install tweepy"
  else
    match init with
    | .error e => .error ("No access to X: API authentication failed - " ++ e)
    | .ok _ =>
      match keywordLoop search fmt keywords with
      | [] => .error "No access to X: Failed to retrieve any tweets. Please check your API credentials and rate limits."
      | r :: rs => .ok (r :: rs)

end GetTwitter

namespace DocumentLoader

/-- Embeds `DocumentLoader.get_docs` (`document_loader.py`, lines 20-37):
the pipeline results are wrapped as `Document(page_content=doc["real_data"])`,
and a pipeline `RuntimeError` propagates. -/
def get_docs {α : Type} (tweepy_available : Bool) (init : Except String Unit)
    (search : String → Except String (List α)) (fmt : List α → String)
    (keywords : List String) : Except String (List Document) :=
  match GetTwitter.twitter_detail_pipeline tweepy_available init search fmt keywords with
  | .error e => .error e
  | .ok rs => .ok (rs.map fun r => { page_content := r.real_data })

/-- Embeds `DocumentLoader.create_vector_store` (`document_loader.py`, lines
39-75): `none` models the `None` returned for an empty document list or when
the text splitter produces no chunks; otherwise the store is modelled by the
split chunks it indexes.  `split` is the external
`RecursiveCharacterTextSplitter.split_documents` call. -/
def create_vector_store (split : List Document → List Document)
    (docs : List Document) : Option (List Document) :=
  if docs = [] then none
  else
    let texts := split docs
    if texts = [] then none
    else some texts

/-- Embeds `DocumentLoader.get_retriever` (`document_loader.py`, lines
77-122): a pipeline `RuntimeError` is re-raised with the same message; an
empty document list, or a failed vector-store creation, yields an empty
result list (a valid non-error state); otherwise the FAISS retriever
(`vsearch`, the external similarity search with k = 10) is invoked on the
stringified keywords and its result returned. -/
def get_retriever {α : Type} (split : List Document → List Document)
    (vsearch : List Document → List String → List Document)
    (tweepy_available : Bool) (init : Except String Unit)
    (search : String → Except String (List α)) (fmt : List α → String)
    (keywords : List String) : Except String (List Document) :=
  match get_docs tweepy_available init search fmt keywords with
  | .error e => .error e
  | .ok docs =>
    if docs = [] then .ok []
    else
      match create_vector_store split docs with
      | none => .ok []
      | some store => .ok (vsearch store keywords)

end DocumentLoader

/-- Characterisation used on the specification side: the relevance grader
returned a relevant verdict for this document (its invocation parsed and the
score equals "yes"). -/
def relevantB (rg : String → String → GraderOut) (q : String) (d : Document) : Bool :=
  match invokeScore (rg q d.page_content) with
  | .ok g => g = "yes"
  | .error _ => false

/-- The relevant-verdict test holds exactly when the grader invocation parsed
and scored "yes". -/
theorem relevantB_true_iff {rg : String → String → GraderOut} {q : String} {d : Document} :
    relevantB rg q d = true ↔ invokeScore (rg q d.page_content) = .ok "yes" := by
  unfold relevantB
  cases hs : invokeScore (rg q d.page_content) with
  | ok g => simp
  | error e => simp

/-- A successful grading loop returns exactly the relevant-filtered list. -/
theorem gradeLoop_ok_filter {rg : String → String → GraderOut} {q : String} :
    ∀ {l out : List Document}, GraphNodes.gradeLoop rg q l = .ok out →
      out = l.filter (relevantB rg q) := by
  intro l
  induction l with
  | nil =>
    intro out h
    unfold GraphNodes.gradeLoop at h
    cases h
    rfl
  | cons d ds ih =>
    intro out h
    unfold GraphNodes.gradeLoop at h
    cases hs : invokeScore (rg q d.page_content) with
    | error e => rw [hs] at h; cases h
    | ok g =>
      rw [hs] at h
      cases hl : GraphNodes.gradeLoop rg q ds with
      | error e => rw [hl] at h; cases h
      | ok rest =>
        rw [hl] at h
        have h2 : (if g = "yes" then Except.ok (d :: rest) else Except.ok rest) =
            Except.ok (ε := GError) out := h
        have hrest := ih hl
        by_cases hg : g = "yes"
        · rw [if_pos hg] at h2
          cases h2
          have hrel : relevantB rg q d = true := by
            rw [relevantB_true_iff, hs, hg]
          simp [List.filter_cons, hrel, hrest]
        · rw [if_neg hg] at h2
          cases h2
          have hrel : relevantB rg q d = false := by
            unfold relevantB
            rw [hs]
            simp [hg]
          simp [List.filter_cons, hrel, hrest]

/-- When every document is graded relevant, the grading loop succeeds and
keeps the whole list. -/
theorem gradeLoop_all_relevant {rg : String → String → GraderOut} {q : String} :
    ∀ {l : List Document}, (∀ d ∈ l, relevantB rg q d = true) →
      GraphNodes.gradeLoop rg q l = .ok l := by
  intro l
  induction l with
  | nil => intro _; rfl
  | cons d ds ih =>
    intro h
    have hd := h d (List.mem_cons_self d ds)
    rw [relevantB_true_iff] at hd
    have hds := ih (fun x hx => h x (List.mem_cons_of_mem d hx))
    unfold GraphNodes.gradeLoop
    rw [hd, hds]
    simp

/-- A successful grading node replaces `documents` by the relevant-filtered
list and changes nothing else. -/
theorem grade_documents_ok_eq {rg : String → String → GraderOut} {s s1 : GState}
    (h : GraphNodes.grade_documents rg s = .ok s1) :
    s1 = { s with documents := s.documents.filter (relevantB rg s.input) } := by
  unfold GraphNodes.grade_documents at h
  by_cases hd : s.documents = []
  · rw [if_pos hd] at h
    cases h
    rw [hd]
    rfl
  · rw [if_neg hd] at h
    cases hl : GraphNodes.gradeLoop rg s.input s.documents with
    | error e => rw [hl] at h; cases h
    | ok out =>
      rw [hl] at h
      cases h
      rw [gradeLoop_ok_filter hl]

/-- When every current document is graded relevant, the grading node leaves
the state unchanged. -/
theorem grade_documents_all_relevant {rg : String → String → GraderOut} {s : GState}
    (h : ∀ d ∈ s.documents, relevantB rg s.input d = true) :
    GraphNodes.grade_documents rg s = .ok s := by
  unfold GraphNodes.grade_documents
  by_cases hd : s.documents = []
  · rw [if_pos hd]
    have he : ({ s with documents := [] } : GState) = s := by rw [← hd]
    rw [he]
  · rw [if_neg hd, gradeLoop_all_relevant h]

/-- Splitting a run of the workflow into two runs. -/
theorem run_add (c : Components) (m n : Nat) (p : WNode × GState) :
    run c (m + n) p =
      match run c m p with
      | .error e => .error e
      | .ok p1 => run c n p1 := by
  induction m generalizing p with
  | zero =>
    rw [Nat.zero_add]
    rfl
  | succ m ih =>
    have hmn : m + 1 + n = (m + n) + 1 := by omega
    rw [hmn]
    simp only [run]
    cases hs : step c p with
    | error e => rfl
    | ok p1 => exact ih p1

/-- A hallucination-grader score other than "yes" makes the generation edge
return "not supported" (the code evaluator branch is not entered). -/
theorem grade_generation_not_grounded
    {hg : List Document → String → GraderOut}
    {ce : String → String → List Document → GraderOut} {s : GState} {v : String}
    (h : invokeScore (hg s.documents (s.generation.getD "")) = .ok v) (hv : v ≠ "yes") :
    EdgeGraph.grade_generation_v_documents_and_question hg ce s = .ok "not supported" := by
  simp only [EdgeGraph.grade_generation_v_documents_and_question, h, hv, if_neg]
  simp

/-- When both graders score "yes", the generation edge returns "useful". -/
theorem grade_generation_useful
    {hg : List Document → String → GraderOut}
    {ce : String → String → List Document → GraderOut} {s : GState}
    (h1 : invokeScore (hg s.documents (s.generation.getD "")) = .ok "yes")
    (h2 : invokeScore (ce s.input (s.generation.getD "") s.documents) = .ok "yes") :
    EdgeGraph.grade_generation_v_documents_and_question hg ce s = .ok "useful" := by
  simp only [EdgeGraph.grade_generation_v_documents_and_question, h1, h2]
  simp

/-- When the hallucination grader scores "yes" and the code evaluator scores
anything else, the generation edge returns "not useful". -/
theorem grade_generation_not_useful
    {hg : List Document → String → GraderOut}
    {ce : String → String → List Document → GraderOut} {s : GState} {v : String}
    (h1 : invokeScore (hg s.documents (s.generation.getD "")) = .ok "yes")
    (h2 : invokeScore (ce s.input (s.generation.getD "") s.documents) = .ok v)
    (hv : v ≠ "yes") :
    EdgeGraph.grade_generation_v_documents_and_question hg ce s = .ok "not useful" := by
  simp only [EdgeGraph.grade_generation_v_documents_and_question, h1, h2, hv, if_neg]
  simp

/-- Sample relevance grader that marks everything relevant. -/
def rgYes : String → String → GraderOut := fun _ _ => .parsed (some "yes")

/-- Sample retrieved document. -/
def docT : Document := { page_content := "tweet about AI trends" }

/-- Sample graph state with one retrieved document. -/
def sampleState : GState :=
  { input := "q", documents := [docT], generation := none, retry_count := 0, error := none }

/-- C5: for every input document sequence, the document set produced by the
grading node is exactly the subsequence of input chunks for which the
relevance grader returned a relevant verdict, and the relative order of the
survivors is preserved from the retriever ranking. -/
theorem C5_grade_documents_is_ordered_relevant_filter
    (rg : String → String → GraderOut) (s s1 : GState)
    (h : GraphNodes.grade_documents rg s = .ok s1) :
    s1.documents = s.documents.filter (relevantB rg s.input) ∧
    s1.documents.Sublist s.documents := by
  have he := grade_documents_ok_eq h
  subst he
  exact ⟨rfl, List.filter_sublist s.documents⟩

/-- Witness for C5 at a concrete grader and state. -/
theorem C5_witness :
    GraphNodes.grade_documents rgYes sampleState = .ok sampleState ∧
    (sampleState.documents = sampleState.documents.filter (relevantB rgYes sampleState.input) ∧
      sampleState.documents.Sublist sampleState.documents) :=
  ⟨by decide, C5_grade_documents_is_ordered_relevant_filter rgYes sampleState sampleState (by decide)⟩

/-- C9: relevance filtering is idempotent: if the grader marks every current
chunk relevant, the grading node returns the state unchanged, and applying
the grading node to its own successful output leaves it unchanged. -/
theorem C9_grade_documents_idempotent
    (rg : String → String → GraderOut) (s : GState) :
    ((∀ d ∈ s.documents, relevantB rg s.input d = true) →
      GraphNodes.grade_documents rg s = .ok s) ∧
    (∀ s1, GraphNodes.grade_documents rg s = .ok s1 →
      GraphNodes.grade_documents rg s1 = .ok s1) := by
  constructor
  · exact grade_documents_all_relevant
  · intro s1 h
    have he := grade_documents_ok_eq h
    subst he
    apply grade_documents_all_relevant
    intro d hd
    exact List.of_mem_filter hd

/-- Witness for C9 at a concrete grader and state. -/
theorem C9_witness :
    GraphNodes.grade_documents rgYes sampleState = .ok sampleState ∧
    GraphNodes.grade_documents rgYes sampleState = .ok sampleState :=
  ⟨(C9_grade_documents_idempotent rgYes sampleState).1 (by decide),
   (C9_grade_documents_idempotent rgYes sampleState).2 sampleState (by decide)⟩

/-- The retrieval node never touches `retry_count`. -/
theorem retrieve_retry_count (r : String → Except String (List Document)) (s : GState) :
    (GraphNodes.retrieve r s).retry_count = s.retry_count := by
  unfold GraphNodes.retrieve
  cases r s.input <;> rfl

/-- The generation node never touches `retry_count`. -/
theorem generate_retry_count (g : List Document → String → String) (s : GState) :
    (GraphNodes.generate g s).retry_count = s.retry_count := by
  unfold GraphNodes.generate
  cases s.error with
  | some e => rfl
  | none => by_cases hd : s.documents = [] <;> simp [hd]

/-- The generation node never touches `error`. -/
theorem generate_error (g : List Document → String → String) (s : GState) :
    (GraphNodes.generate g s).error = s.error := by
  unfold GraphNodes.generate
  cases s.error with
  | some e => rfl
  | none => by_cases hd : s.documents = [] <;> simp [hd]

/-- One workflow transition changes `retry_count` by exactly one on the
`transform_query` node and leaves it unchanged on every other node. -/
theorem step_retry_count {c : Components} {nd nd1 : WNode} {s s1 : GState}
    (h : step c (nd, s) = .ok (nd1, s1)) :
    s1.retry_count = s.retry_count + (if nd = WNode.transform_query then 1 else 0) := by
  cases nd with
  | retrieve =>
    simp only [step] at h
    cases h
    simp [retrieve_retry_count]
  | grade_documents =>
    simp only [step] at h
    cases hg : GraphNodes.grade_documents c.retrieval_grader s with
    | error e => rw [hg] at h; cases h
    | ok s2 =>
      rw [hg] at h
      have h2 : (if EdgeGraph.decide_to_generate s2 = "transform_query" then
          Except.ok (ε := GError) (WNode.transform_query, s2)
          else .ok (.generate, s2)) = .ok (nd1, s1) := h
      have he := grade_documents_ok_eq hg
      by_cases hc : EdgeGraph.decide_to_generate s2 = "transform_query"
      · rw [if_pos hc] at h2
        cases h2
        rw [he]
        simp
      · rw [if_neg hc] at h2
        cases h2
        rw [he]
        simp
  | generate =>
    simp only [step] at h
    cases hg : EdgeGraph.grade_generation_v_documents_and_question c.hallucination_grader
        c.code_evaluator (GraphNodes.generate c.generate_chain s) with
    | error e => rw [hg] at h; cases h
    | ok d =>
      rw [hg] at h
      have h2 : (if d = "not supported" then
            Except.ok (ε := GError) (WNode.generate, GraphNodes.generate c.generate_chain s)
          else if d = "useful" then
            .ok (.terminal, GraphNodes.generate c.generate_chain s)
          else .ok (.transform_query, GraphNodes.generate c.generate_chain s)) = .ok (nd1, s1) := h
      by_cases d1 : d = "not supported"
      · rw [if_pos d1] at h2
        cases h2
        simp [generate_retry_count]
      · rw [if_neg d1] at h2
        by_cases d2 : d = "useful"
        · rw [if_pos d2] at h2
          cases h2
          simp [generate_retry_count]
        · rw [if_neg d2] at h2
          cases h2
          simp [generate_retry_count]
  | transform_query =>
    simp only [step] at h
    cases h
    simp [GraphNodes.transform_query]
  | terminal =>
    simp only [step] at h
    cases h
    simp

/-- Along any run, `retry_count` never decreases. -/
theorem run_retry_mono {c : Components} : ∀ {n : Nat} {p p1 : WNode × GState},
    run c n p = .ok p1 → p.2.retry_count ≤ p1.2.retry_count := by
  intro n
  induction n with
  | zero =>
    intro p p1 h
    cases h
    exact le_refl _
  | succ n ih =>
    intro p p1 h
    simp only [run] at h
    cases hs : step c p with
    | error e => rw [hs] at h; cases h
    | ok p2 =>
      rw [hs] at h
      have h2 : run c n p2 = .ok p1 := h
      obtain ⟨nd, s⟩ := p
      obtain ⟨nd2, s2⟩ := p2
      have hstep := step_retry_count hs
      have : s.retry_count ≤ s2.retry_count := by
        rw [hstep]
        exact Nat.le_add_right _ _
      exact le_trans this (ih h2)

/-- The terminal node absorbs: once the workflow has reached `END`, every
further run stays there. -/
theorem run_terminal (c : Components) : ∀ (n : Nat) (s : GState),
    run c n (.terminal, s) = .ok (.terminal, s) := by
  intro n
  induction n with
  | zero => intro s; rfl
  | succ n ih =>
    intro s
    simp only [run, step]
    exact ih s

/-- Sample components: retrieval succeeds with one document, every grader
scores "yes" and the rewriter is the identity. -/
def cfgAllYes : Components :=
  { retr := fun _ => .ok [docT]
    retrieval_grader := rgYes
    hallucination_grader := fun _ _ => .parsed (some "yes")
    code_evaluator := fun _ _ _ => .parsed (some "yes")
    question_rewriter := fun q => q
    generate_chain := fun _ _ => "generated answer" }

/-- C4: `retry_count` starts at 0, is incremented by exactly one by the
`transform_query` transition, is left unchanged by every other node
(`retrieve`, `grade_documents`, `generate`), and is therefore monotonically
non-decreasing along every run, equalling the number of query-rewriter
transitions executed. -/
theorem C4_retry_count_invariant :
    (∀ q, (initState q).retry_count = 0) ∧
    (∀ (c : Components) (nd nd1 : WNode) (s s1 : GState),
      step c (nd, s) = .ok (nd1, s1) →
      s1.retry_count = s.retry_count + (if nd = WNode.transform_query then 1 else 0)) ∧
    (∀ (c : Components) (n : Nat) (p p1 : WNode × GState),
      run c n p = .ok p1 → p.2.retry_count ≤ p1.2.retry_count) :=
  ⟨fun _ => rfl, fun _ _ _ _ _ h => step_retry_count h, fun _ _ _ _ h => run_retry_mono h⟩

/-- Witness for C4 at concrete components and states. -/
theorem C4_witness :
    (initState "q").retry_count = 0 ∧
    (GraphNodes.transform_query cfgAllYes.question_rewriter (initState "q")).retry_count =
      (initState "q").retry_count + (if WNode.transform_query = WNode.transform_query then 1 else 0) ∧
    ((WNode.retrieve, initState "q") : WNode × GState).2.retry_count ≤
      ((WNode.grade_documents, GraphNodes.retrieve cfgAllYes.retr (initState "q")) :
        WNode × GState).2.retry_count :=
  ⟨C4_retry_count_invariant.1 "q",
   C4_retry_count_invariant.2.1 cfgAllYes .transform_query .retrieve (initState "q")
     (GraphNodes.transform_query cfgAllYes.question_rewriter (initState "q")) (by decide),
   C4_retry_count_invariant.2.2 cfgAllYes 1 (.retrieve, initState "q")
     (.grade_documents, GraphNodes.retrieve cfgAllYes.retr (initState "q")) (by decide)⟩

/-- C8: the usefulness grader (code evaluator) is consulted only when the
hallucination grader has just returned a grounded ("yes") verdict: whenever
the groundedness score is anything else, the generation edge is independent
of the code evaluator and returns "not supported". -/
theorem C8_code_evaluator_only_when_grounded
    (hg : List Document → String → GraderOut)
    (ce1 ce2 : String → String → List Document → GraderOut) (s : GState) :
    (invokeScore (hg s.documents (s.generation.getD "")) ≠ .ok "yes" →
      EdgeGraph.grade_generation_v_documents_and_question hg ce1 s =
        EdgeGraph.grade_generation_v_documents_and_question hg ce2 s) ∧
    (∀ v, invokeScore (hg s.documents (s.generation.getD "")) = .ok v → v ≠ "yes" →
      EdgeGraph.grade_generation_v_documents_and_question hg ce1 s = .ok "not supported") := by
  constructor
  · intro hne
    cases hs : invokeScore (hg s.documents (s.generation.getD "")) with
    | error e =>
      simp only [EdgeGraph.grade_generation_v_documents_and_question, hs]
    | ok g =>
      have hgne : g ≠ "yes" := fun hgy => hne (by rw [hs, hgy])
      rw [grade_generation_not_grounded hs hgne, grade_generation_not_grounded hs hgne]
  · intro v hv hvne
    exact grade_generation_not_grounded hv hvne

/-- Sample hallucination grader that scores "no" (not grounded). -/
def hgNo : List Document → String → GraderOut := fun _ _ => .parsed (some "no")

/-- Sample code evaluator scoring "yes". -/
def ceA : String → String → List Document → GraderOut := fun _ _ _ => .parsed (some "yes")

/-- Sample code evaluator scoring "no". -/
def ceB : String → String → List Document → GraderOut := fun _ _ _ => .parsed (some "no")

/-- Sample graph state just after a generation. -/
def sampleGenState : GState :=
  { input := "q", documents := [docT], generation := some "ans", retry_count := 0, error := none }

/-- Witness for C8 at a not-grounded verdict and two different evaluators. -/
theorem C8_witness :
    (EdgeGraph.grade_generation_v_documents_and_question hgNo ceA sampleGenState =
      EdgeGraph.grade_generation_v_documents_and_question hgNo ceB sampleGenState) ∧
    EdgeGraph.grade_generation_v_documents_and_question hgNo ceA sampleGenState =
      .ok "not supported" :=
  ⟨(C8_code_evaluator_only_when_grounded hgNo ceA ceB sampleGenState).1 (by decide),
   (C8_code_evaluator_only_when_grounded hgNo ceA ceB sampleGenState).2 "no" (by decide) (by decide)⟩

/-- Sample state carrying a fetch error together with non-empty documents. -/
def errState : GState :=
  { input := "q", documents := [docT], generation := none, retry_count := 1,
    error := some "auth failed" }

/-- C10: once `error` has been set by a failed retrieval, no node output ever
clears it — a later successful retrieve replaces `documents` without
resetting `error` — and every later pass through the generate node returns
the apology referencing the stored error without consulting the generation
chain, even when the current document set is non-empty. -/
theorem C10_error_sticky_and_generate_short_circuits :
    (∀ (r : String → Except String (List Document)) (s : GState) (docs : List Document),
      r s.input = .ok docs → (GraphNodes.retrieve r s).error = s.error) ∧
    (∀ (rg : String → String → GraderOut) (s s1 : GState),
      GraphNodes.grade_documents rg s = .ok s1 → s1.error = s.error) ∧
    (∀ (qr : String → String) (s : GState),
      (GraphNodes.transform_query qr s).error = s.error) ∧
    (∀ (g : List Document → String → String) (s : GState),
      (GraphNodes.generate g s).error = s.error) ∧
    (∀ (g1 g2 : List Document → String → String) (s : GState) (e : String),
      s.error = some e →
      GraphNodes.generate g1 s = { s with generation := some (GraphNodes.apologyMessage e) } ∧
      GraphNodes.generate g1 s = GraphNodes.generate g2 s) := by
  refine ⟨?_, ?_, ?_, ?_, ?_⟩
  · intro r s docs h
    unfold GraphNodes.retrieve
    rw [h]
  · intro rg s s1 h
    have he := grade_documents_ok_eq h
    subst he
    rfl
  · intro qr s
    rfl
  · intro g s
    exact generate_error g s
  · intro g1 g2 s e h
    constructor
    · unfold GraphNodes.generate
      rw [h]
    · unfold GraphNodes.generate
      rw [h]

/-- Witness for C10 at a state carrying an error and non-empty documents. -/
theorem C10_witness :
    (GraphNodes.retrieve (fun _ => Except.ok [docT]) errState).error = errState.error ∧
    errState.error = errState.error ∧
    (GraphNodes.generate (fun _ _ => "a") errState =
      { errState with generation := some (GraphNodes.apologyMessage "auth failed") } ∧
      GraphNodes.generate (fun _ _ => "a") errState =
        GraphNodes.generate (fun _ _ => "b") errState) :=
  ⟨C10_error_sticky_and_generate_short_circuits.1 (fun _ => Except.ok [docT]) errState [docT] rfl,
   C10_error_sticky_and_generate_short_circuits.2.1 rgYes errState errState (by decide),
   C10_error_sticky_and_generate_short_circuits.2.2.2.2 (fun _ _ => "a") (fun _ _ => "b")
     errState "auth failed" rfl⟩

/-- After the `generate` node, the conditional edge maps the decision string
to the next node ("not supported" regenerates, "useful" terminates,
anything else transforms the query). -/
theorem step_generate_edge {c : Components} {s : GState} {d : String}
    (h : EdgeGraph.grade_generation_v_documents_and_question c.hallucination_grader
      c.code_evaluator (GraphNodes.generate c.generate_chain s) = .ok d) :
    step c (.generate, s) =
      .ok ((if d = "not supported" then WNode.generate
            else if d = "useful" then WNode.terminal else WNode.transform_query),
        GraphNodes.generate c.generate_chain s) := by
  simp only [step, h]
  by_cases d1 : d = "not supported"
  · simp [d1]
  · by_cases d2 : d = "useful" <;> simp [d1, d2]

/-- Components identical to `cfgAllYes` except a not-grounded hallucination
verdict. -/
def cfgHgNo : Components := { cfgAllYes with hallucination_grader := hgNo }

/-- Components identical to `cfgAllYes` except a not-useful code-evaluator
verdict. -/
def cfgCeNo : Components := { cfgAllYes with code_evaluator := ceB }

/-- C1: the workflow transition function matches the specified table: from
RETRIEVE it always goes to GRADE_DOCUMENTS; from GRADE_DOCUMENTS it goes to
TRANSFORM_QUERY exactly when the filtered document list is empty and to
GENERATE otherwise; from TRANSFORM_QUERY it always goes to RETRIEVE; from
GENERATE it goes back to GENERATE when the groundedness verdict is not
"yes", terminates when grounded and useful, and goes to TRANSFORM_QUERY when
grounded and not useful; and no run contains two consecutive TRANSFORM_QUERY
transitions without an intervening RETRIEVE (the step after TRANSFORM_QUERY
is always RETRIEVE). -/
theorem C1_transition_table (c : Components) (s : GState) :
    (∃ s1, step c (.retrieve, s) = .ok (.grade_documents, s1)) ∧
    (∀ s1, GraphNodes.grade_documents c.retrieval_grader s = .ok s1 →
      step c (.grade_documents, s) =
        .ok ((if s1.documents = [] then WNode.transform_query else WNode.generate), s1)) ∧
    (∃ s1, step c (.transform_query, s) = .ok (.retrieve, s1)) ∧
    (∀ v, invokeScore (c.hallucination_grader
        (GraphNodes.generate c.generate_chain s).documents
        ((GraphNodes.generate c.generate_chain s).generation.getD "")) = .ok v → v ≠ "yes" →
      step c (.generate, s) = .ok (.generate, GraphNodes.generate c.generate_chain s)) ∧
    (invokeScore (c.hallucination_grader
        (GraphNodes.generate c.generate_chain s).documents
        ((GraphNodes.generate c.generate_chain s).generation.getD "")) = .ok "yes" →
      invokeScore (c.code_evaluator (GraphNodes.generate c.generate_chain s).input
        ((GraphNodes.generate c.generate_chain s).generation.getD "")
        (GraphNodes.generate c.generate_chain s).documents) = .ok "yes" →
      step c (.generate, s) = .ok (.terminal, GraphNodes.generate c.generate_chain s)) ∧
    (∀ v, invokeScore (c.hallucination_grader
        (GraphNodes.generate c.generate_chain s).documents
        ((GraphNodes.generate c.generate_chain s).generation.getD "")) = .ok "yes" →
      invokeScore (c.code_evaluator (GraphNodes.generate c.generate_chain s).input
        ((GraphNodes.generate c.generate_chain s).generation.getD "")
        (GraphNodes.generate c.generate_chain s).documents) = .ok v → v ≠ "yes" →
      step c (.generate, s) = .ok (.transform_query, GraphNodes.generate c.generate_chain s)) ∧
    (∀ (n : Nat) (p : WNode × GState) (s1 : GState),
      run c n p = .ok (.transform_query, s1) →
      run c (n + 1) p = .ok (.retrieve, GraphNodes.transform_query c.question_rewriter s1)) := by
  refine ⟨⟨GraphNodes.retrieve c.retr s, rfl⟩, ?_, ⟨GraphNodes.transform_query c.question_rewriter s, rfl⟩, ?_, ?_, ?_, ?_⟩
  · intro s1 h
    simp only [step, h]
    by_cases hd : s1.documents = []
    · simp [EdgeGraph.decide_to_generate, hd]
    · simp [EdgeGraph.decide_to_generate, hd]
  · intro v hv hvne
    rw [step_generate_edge (grade_generation_not_grounded hv hvne)]
    simp
  · intro h1 h2
    rw [step_generate_edge (grade_generation_useful h1 h2)]
    simp
  · intro v h1 h2 hvne
    rw [step_generate_edge (grade_generation_not_useful h1 h2 hvne)]
    simp
  · intro n p s1 h
    rw [run_add c n 1, h]
    rfl

/-- Witness for C1 exercising each conditional edge at concrete inputs. -/
theorem C1_witness :
    step cfgAllYes (.grade_documents, sampleState) =
      .ok ((if sampleState.documents = [] then WNode.transform_query else WNode.generate),
        sampleState) ∧
    step cfgHgNo (.generate, sampleState) =
      .ok (.generate, GraphNodes.generate cfgHgNo.generate_chain sampleState) ∧
    step cfgAllYes (.generate, sampleState) =
      .ok (.terminal, GraphNodes.generate cfgAllYes.generate_chain sampleState) ∧
    step cfgCeNo (.generate, sampleState) =
      .ok (.transform_query, GraphNodes.generate cfgCeNo.generate_chain sampleState) ∧
    run cfgAllYes 1 (.transform_query, sampleState) =
      .ok (.retrieve, GraphNodes.transform_query cfgAllYes.question_rewriter sampleState) :=
  ⟨(C1_transition_table cfgAllYes sampleState).2.1 sampleState (by decide),
   (C1_transition_table cfgHgNo sampleState).2.2.2.1 "no" (by decide) (by decide),
   (C1_transition_table cfgAllYes sampleState).2.2.2.2.1 (by decide) (by decide),
   (C1_transition_table cfgCeNo sampleState).2.2.2.2.2.1 "no" (by decide) (by decide) (by decide),
   (C1_transition_table cfgAllYes sampleState).2.2.2.2.2.2 0 (.transform_query, sampleState)
     sampleState (by decide)⟩

/-- Components on which every retrieval succeeds with one document but the
relevance grader rejects every document. -/
def cfgNoRelevant : Components := { cfgAllYes with retrieval_grader := fun _ _ => .parsed (some "no") }

/-- One full `retrieve → grade_documents → transform_query` cycle under
`cfgNoRelevant` increments `retry_count` and returns to `retrieve`. -/
theorem cfgNoRelevant_cycle (k : Nat) :
    run cfgNoRelevant 3 (.retrieve, { initState "q" with retry_count := k }) =
      .ok (.retrieve, { initState "q" with retry_count := k + 1 }) := rfl

/-- C2 fails on the code: when the relevance grader rejects every document,
the workflow cycles `retrieve → grade_documents → transform_query` forever.
`retry_count` passes every bound (in particular the printed bound 3) and the
terminal node is never reached: nothing in the code force-terminates the
loop with a last generation or a fallback. -/
theorem C2_retry_bound_never_enforced :
    (∀ n, run cfgNoRelevant (3 * n) (.retrieve, initState "q") =
      .ok (.retrieve, { initState "q" with retry_count := n })) ∧
    (∀ (m : Nat) (s1 : GState),
      run cfgNoRelevant m (.retrieve, initState "q") ≠ .ok (.terminal, s1)) := by
  have hcycle : ∀ n, run cfgNoRelevant (3 * n) (.retrieve, initState "q") =
      .ok (.retrieve, { initState "q" with retry_count := n }) := by
    intro n
    induction n with
    | zero => rfl
    | succ n ih =>
      have h3 : 3 * (n + 1) = 3 * n + 3 := by ring
      rw [h3, run_add cfgNoRelevant (3 * n) 3, ih]
      exact cfgNoRelevant_cycle n
  refine ⟨hcycle, ?_⟩
  intro m s1 hterm
  have h1 : run cfgNoRelevant (m + 2 * m) (.retrieve, initState "q") = .ok (.terminal, s1) := by
    rw [run_add cfgNoRelevant m (2 * m), hterm]
    exact run_terminal cfgNoRelevant (2 * m) s1
  have h2 := hcycle m
  have h3m : 3 * m = m + 2 * m := by ring
  rw [h3m, h1] at h2
  simp at h2

/-- Components on which every retrieval raises
`RuntimeError("auth failed")`. -/
def cfgFetchFail : Components := { cfgAllYes with retr := fun _ => .error "auth failed" }

/-- One full cycle under `cfgFetchFail`: the captured error persists and
`retry_count` is incremented. -/
theorem cfgFetchFail_cycle (k : Nat) :
    run cfgFetchFail 3 (.retrieve,
      { input := "q", documents := [], generation := none, retry_count := k,
        error := some "auth failed" }) =
      .ok (.retrieve,
        { input := "q", documents := [], generation := none, retry_count := k + 1,
          error := some "auth failed" }) := rfl

/-- C3 fails on the code: after the fetcher raises, the error is captured
into the state (documents empty, no exception propagates), but the loop does
NOT terminate with an apology: with empty documents the conditional edge
routes to `transform_query`, the question is rewritten and retrieval is
retried, and with a persistently failing fetcher the loop cycles forever
without ever reaching `generate` or the terminal node (`generation` stays
unset, so no generation containing "auth failed" is produced). -/
theorem C3_fetch_error_session_keeps_looping :
    (run cfgFetchFail 2 (.retrieve, initState "q") =
      .ok (.transform_query,
        { input := "q", documents := [], generation := none, retry_count := 0,
          error := some "auth failed" })) ∧
    (∀ n, run cfgFetchFail (3 * n + 3) (.retrieve, initState "q") =
      .ok (.retrieve,
        { input := "q", documents := [], generation := none, retry_count := n + 1,
          error := some "auth failed" })) ∧
    (∀ (m : Nat) (s1 : GState),
      run cfgFetchFail m (.retrieve, initState "q") ≠ .ok (.terminal, s1)) := by
  have hcycle : ∀ n, run cfgFetchFail (3 * n + 3) (.retrieve, initState "q") =
      .ok (.retrieve,
        { input := "q", documents := [], generation := none, retry_count := n + 1,
          error := some "auth failed" }) := by
    intro n
    induction n with
    | zero => rfl
    | succ n ih =>
      have h3 : 3 * (n + 1) + 3 = (3 * n + 3) + 3 := by ring
      rw [h3, run_add cfgFetchFail (3 * n + 3) 3, ih]
      exact cfgFetchFail_cycle (n + 1)
  refine ⟨rfl, hcycle, ?_⟩
  intro m s1 hterm
  have h1 : run cfgFetchFail (m + (2 * m + 3)) (.retrieve, initState "q") =
      .ok (.terminal, s1) := by
    rw [run_add cfgFetchFail m (2 * m + 3), hterm]
    exact run_terminal cfgFetchFail (2 * m + 3) s1
  have h2 := hcycle m
  have h3m : 3 * m + 3 = m + (2 * m + 3) := by ring
  rw [h3m, h1] at h2
  simp at h2

/-- A grader exception on the head document makes the whole grading loop
raise. -/
theorem gradeLoop_head_error {rg : String → String → GraderOut} {q : String}
    {d : Document} {ds : List Document} {er : GError}
    (h : invokeScore (rg q d.page_content) = .error er) :
    GraphNodes.gradeLoop rg q (d :: ds) = .error er := by
  unfold GraphNodes.gradeLoop
  rw [h]

/-- A successful grading loop has parsed every grader response. -/
theorem gradeLoop_ok_all_parsed {rg : String → String → GraderOut} {q : String} :
    ∀ {l out : List Document}, GraphNodes.gradeLoop rg q l = .ok out →
      ∀ d ∈ l, ∃ v, invokeScore (rg q d.page_content) = .ok v := by
  intro l
  induction l with
  | nil =>
    intro out _ d hd
    cases hd
  | cons d0 ds ih =>
    intro out h d hd
    unfold GraphNodes.gradeLoop at h
    cases hs : invokeScore (rg q d0.page_content) with
    | error e => rw [hs] at h; cases h
    | ok g =>
      rw [hs] at h
      cases hl : GraphNodes.gradeLoop rg q ds with
      | error e => rw [hl] at h; cases h
      | ok rest =>
        rcases List.mem_cons.mp hd with rfl | hmem
        · exact ⟨g, hs⟩
        · exact ih hl d hmem

/-- C6 counterexample: a grader response that parses but is not of the
binary {score: yes|no} shape (score "maybe") is NOT a hard failure: the
grading node succeeds and silently drops the document (treating the
response as a not-relevant verdict), and the generation edge silently
treats it as a not-grounded verdict. -/
theorem C6_counterexample :
    GraphNodes.grade_documents (fun _ _ => GraderOut.parsed (some "maybe")) sampleState =
      .ok { sampleState with documents := [] } ∧
    EdgeGraph.grade_generation_v_documents_and_question
      (fun _ _ => GraderOut.parsed (some "maybe")) ceA sampleGenState = .ok "not supported" :=
  ⟨rfl, rfl⟩

/-- C6 amended: a grader response that fails JSON parsing, or parses without
a `score` key, raises and the exception propagates to the caller of the
grading node or generation edge (a successful grading node has parsed every
response); but a successfully parsed response whose score is any string
other than "yes" is silently treated as the negative verdict (document
dropped / "not supported") rather than reported as an error. -/
theorem C6_malformed_response_handling :
    (∀ m, invokeScore (GraderOut.parseFail m) = .error (GError.outputParseError m)) ∧
    (invokeScore (GraderOut.parsed none) = .error GError.keyError) ∧
    (∀ (rg : String → String → GraderOut) (s : GState) (d : Document)
       (ds : List Document) (er : GError),
      s.documents = d :: ds → invokeScore (rg s.input d.page_content) = .error er →
      GraphNodes.grade_documents rg s = .error er) ∧
    (∀ (rg : String → String → GraderOut) (s s1 : GState),
      GraphNodes.grade_documents rg s = .ok s1 →
      ∀ d ∈ s.documents, ∃ v, invokeScore (rg s.input d.page_content) = .ok v) ∧
    (∀ (hg : List Document → String → GraderOut)
       (ce : String → String → List Document → GraderOut) (s : GState) (er : GError),
      invokeScore (hg s.documents (s.generation.getD "")) = .error er →
      EdgeGraph.grade_generation_v_documents_and_question hg ce s = .error er) ∧
    (∀ (hg : List Document → String → GraderOut)
       (ce : String → String → List Document → GraderOut) (s : GState) (v : String),
      invokeScore (hg s.documents (s.generation.getD "")) = .ok v → v ≠ "yes" →
      EdgeGraph.grade_generation_v_documents_and_question hg ce s = .ok "not supported") := by
  refine ⟨fun m => rfl, rfl, ?_, ?_, ?_, ?_⟩
  · intro rg s d ds er hcons herr
    unfold GraphNodes.grade_documents
    rw [hcons, if_neg (List.cons_ne_nil d ds), gradeLoop_head_error herr]
  · intro rg s s1 h d hd
    unfold GraphNodes.grade_documents at h
    by_cases hde : s.documents = []
    · rw [hde] at hd
      cases hd
    · rw [if_neg hde] at h
      cases hl : GraphNodes.gradeLoop rg s.input s.documents with
      | error e => rw [hl] at h; cases h
      | ok out => exact gradeLoop_ok_all_parsed hl d hd
  · intro hg ce s er h
    simp only [EdgeGraph.grade_generation_v_documents_and_question, h]
  · intro hg ce s v hv hvne
    exact grade_generation_not_grounded hv hvne

/-- Witness for the amended C6 at concrete malformed and well-formed grader
responses. -/
theorem C6_witness :
    invokeScore (GraderOut.parseFail "bad json") = .error (GError.outputParseError "bad json") ∧
    GraphNodes.grade_documents (fun _ _ => GraderOut.parseFail "bad json") sampleState =
      .error (GError.outputParseError "bad json") ∧
    (∃ v, invokeScore (rgYes sampleState.input docT.page_content) = .ok v) ∧
    EdgeGraph.grade_generation_v_documents_and_question
      (fun _ _ => GraderOut.parseFail "bad json") ceA sampleGenState =
      .error (GError.outputParseError "bad json") ∧
    EdgeGraph.grade_generation_v_documents_and_question hgNo ceA sampleGenState =
      .ok "not supported" :=
  ⟨C6_malformed_response_handling.1 "bad json",
   C6_malformed_response_handling.2.2.1 (fun _ _ => GraderOut.parseFail "bad json")
     sampleState docT [] (GError.outputParseError "bad json") (by decide) (by decide),
   C6_malformed_response_handling.2.2.2.1 rgYes sampleState sampleState (by decide)
     docT (by decide),
   C6_malformed_response_handling.2.2.2.2.1 (fun _ _ => GraderOut.parseFail "bad json")
     ceA sampleGenState (GError.outputParseError "bad json") (by decide),
   C6_malformed_response_handling.2.2.2.2.2 hgNo ceA sampleGenState "no" (by decide) (by decide)⟩

/-- When every keyword search returns no tweets, the keyword loop collects
nothing. -/
theorem keywordLoop_all_empty {α : Type} {search : String → Except String (List α)}
    {fmt : List α → String} (h : ∀ k, search k = .ok []) :
    ∀ keywords, GetTwitter.keywordLoop search fmt keywords = [] := by
  intro keywords
  induction keywords with
  | nil => rfl
  | cons k ks ih =>
    unfold GetTwitter.keywordLoop
    rw [h k, ih]

/-- C7 counterexample: a fetcher that returns zero items for every keyword
does NOT yield an empty retrieval result: `twitter_detail_pipeline` raises
the no-access `RuntimeError`, `get_retriever` re-raises it, and the retrieve
node treats it exactly like a fetch failure, storing it under `error`. -/
theorem C7_counterexample :
    DocumentLoader.get_retriever (fun docs => docs) (fun store _ => store) true (.ok ())
      (fun _ => Except.ok ([] : List Unit)) (fun _ => "") ["AI trends"] =
      .error "No access to X: Failed to retrieve any tweets. Please check your API credentials and rate limits." ∧
    GraphNodes.retrieve
      (fun _ => DocumentLoader.get_retriever (fun docs => docs) (fun store _ => store) true
        (.ok ()) (fun _ => Except.ok ([] : List Unit)) (fun _ => "") ["AI trends"])
      (initState "AI trends") =
      { input := "AI trends", documents := [], generation := none, retry_count := 0,
        error := some "No access to X: Failed to retrieve any tweets. Please check your API credentials and rate limits." } :=
  ⟨rfl, rfl⟩

/-- C7 amended: a fetcher returning zero items for every keyword makes the
pipeline raise the no-access error (treated as a fetch failure); only when
documents were fetched but the indexer (splitter / vector store) yields zero
chunks does the retriever return an empty sequence as a valid non-error
state, and the control loop then proceeds to `transform_query`. -/
theorem C7_empty_results_handling :
    (∀ {α : Type} (search : String → Except String (List α)) (fmt : List α → String)
       (keywords : List String),
      (∀ k, search k = .ok []) →
      GetTwitter.twitter_detail_pipeline true (.ok ()) search fmt keywords =
        .error "No access to X: Failed to retrieve any tweets. Please check your API credentials and rate limits.") ∧
    (∀ {α : Type} (split : List Document → List Document)
       (vsearch : List Document → List String → List Document)
       (ta : Bool) (ini : Except String Unit) (search : String → Except String (List α))
       (fmt : List α → String) (keywords : List String) (docs : List Document),
      DocumentLoader.get_docs ta ini search fmt keywords = .ok docs → split docs = [] →
      DocumentLoader.get_retriever split vsearch ta ini search fmt keywords = .ok []) ∧
    (∀ (c : Components) (s : GState), c.retr s.input = .ok [] →
      run c 2 (.retrieve, s) = .ok (.transform_query, { s with documents := [] })) := by
  refine ⟨?_, ?_, ?_⟩
  · intro α search fmt keywords h
    unfold GetTwitter.twitter_detail_pipeline
    rw [keywordLoop_all_empty h keywords]
    rfl
  · intro α split vsearch ta ini search fmt keywords docs hdocs hsplit
    unfold DocumentLoader.get_retriever
    rw [hdocs]
    by_cases hd : docs = []
    · simp [hd]
    · simp [hd, DocumentLoader.create_vector_store, hsplit]
  · intro c s h
    have h1 : step c (.retrieve, s) = .ok (.grade_documents, { s with documents := [] }) := by
      simp only [step, GraphNodes.retrieve, h]
    have h2 : step c (.grade_documents, { s with documents := [] }) =
        .ok (.transform_query, { s with documents := [] }) := rfl
    show (match step c (.retrieve, s) with
          | .error e => Except.error e
          | .ok p1 => run c 1 p1) = _
    rw [h1]
    show (match step c (.grade_documents, { s with documents := [] }) with
          | .error e => Except.error e
          | .ok p1 => run c 0 p1) = _
    rw [h2]
    rfl

/-- Components whose retrieval succeeds with an empty document list. -/
def cfgEmptyRetr : Components := { cfgAllYes with retr := fun _ => .ok [] }

/-- Witness for the amended C7 at concrete searches, splitters and
components. -/
theorem C7_witness :
    GetTwitter.twitter_detail_pipeline true (.ok ()) (fun _ => Except.ok ([] : List Unit))
      (fun _ => "") ["AI trends"] =
      .error "No access to X: Failed to retrieve any tweets. Please check your API credentials and rate limits." ∧
    DocumentLoader.get_retriever (fun _ => []) (fun store _ => store) true (.ok ())
      (fun _ => Except.ok [()]) (fun _ => "t") ["AI trends"] = .ok [] ∧
    run cfgEmptyRetr 2 (.retrieve, initState "q") =
      .ok (.transform_query, { initState "q" with documents := [] }) :=
  ⟨C7_empty_results_handling.1 (fun _ => Except.ok ([] : List Unit)) (fun _ => "")
     ["AI trends"] (fun _ => rfl),
   C7_empty_results_handling.2.1 (fun _ => []) (fun store _ => store) true (.ok ())
     (fun _ => Except.ok [()]) (fun _ => "t") ["AI trends"]
     [{ page_content := "t" }] (by decide) rfl,
   C7_empty_results_handling.2.2 cfgEmptyRetr (initState "q") rfl⟩

end TwitterAgent
